import Mathlib

/-!
Shallow embedding of the ZENO chat application's core subsystem:
the multi-provider completion engine with failover (`src/lib/openai.ts`),
the stream relay (`src/app/api/chat/stream/route.ts`), the context
assembler of the chat routes (`src/app/api/chat/route.ts`), the document
truncation helper (`src/lib/fileParser.ts`) and the image-request
classifier/extractor (Pollinations image-generation utility).

JavaScript strings are modelled as Lean `String` (lists of characters);
JavaScript `trim` is modelled over the ASCII whitespace characters that
occur in the repository's data.  Provider calls are modelled by explicit
behaviour values (the response payload on success, or the thrown error
message), and callback-driven streaming by explicit event traces.
-/

namespace Zeno

/-! ## String helpers (JS semantics over character lists) -/

/-- ASCII whitespace, the fragment of the JavaScript `\s` class relevant here. -/
def isWS (c : Char) : Bool :=
  c = ' ' || c = '\t' || c = '\n' || c = '\r'

/-- Drop leading characters satisfying `p` twice composes to once. -/
def trimL (cs : List Char) : List Char :=
  ((cs.dropWhile isWS).reverse.dropWhile isWS).reverse

/-- JavaScript `String.prototype.trim` (ASCII whitespace). -/
def strTrim (s : String) : String :=
  String.mk (trimL s.data)

/-- JavaScript `String.prototype.length` (code units; code points here). -/
def strLen (s : String) : Nat :=
  s.data.length

/-- `needle` occurs at the start of `hay`. -/
def beginsWithL : List Char → List Char → Bool
  | _, [] => true
  | [], _ :: _ => false
  | h :: hs, n :: ns => h = n && beginsWithL hs ns

/-- `needle` occurs as a contiguous substring of `hay`. -/
def hasSubL : List Char → List Char → Bool
  | [], needle => needle.isEmpty
  | h :: t, needle => beginsWithL (h :: t) needle || hasSubL t needle

/-- Substring occurrence on strings ("the error message references X"). -/
def strContains (hay needle : String) : Bool :=
  hasSubL hay.data needle.data

/-- First `n` characters, JS `substring(0, n)`. -/
def strTake (s : String) (n : Nat) : String :=
  String.mk (s.data.take n)

/-- Last `n` characters, JS `substring(len - n)` for `n ≤ len`. -/
def strTakeLast (s : String) (n : Nat) : String :=
  String.mk (s.data.drop (s.data.length - n))

/-! ## Data model

`ChatMessage` is the provider-agnostic `{role, content}` shape of
`src/lib/openai.ts`; `StoredMessage` is one entry of a persisted
`Conversation.messages` array (`src/lib/models/Conversation.ts`), whose
timestamp is abstracted as a `Nat`. -/

inductive Role
  | user
  | assistant
  | system
deriving DecidableEq, Repr

structure ChatMessage where
  role : Role
  content : String
deriving DecidableEq, Repr

structure StoredMessage where
  role : Role
  content : String
  timestamp : Nat
  isVoice : Bool
deriving DecidableEq, Repr

def toChat (m : StoredMessage) : ChatMessage :=
  { role := m.role, content := m.content }

/-! ## Completion engine, blocking path (`src/lib/openai.ts`) -/

/-- The fixed apology text of `openai.ts` (returned when a provider
response holds no extractable text). -/
def apologyText : String :=
  "I apologize, I couldn\x27t generate a response. Please try again."

/-- The generic message thrown by `getChatCompletion` / passed to
`onError` by `streamChatCompletion` when both providers fail. -/
def unavailableText : String :=
  "All AI services are currently unavailable. Please try again later."

/-- The combined diagnostic built by both-providers-failed branches;
in the source it is only written to `console.error`. -/
def combinedLogText (groqMsg cohereMsg : String) : String :=
  "Both AI providers failed.\nGroq error: " ++ groqMsg ++ "\nCohere error: " ++ cohereMsg

/-- Role translation of the Cohere adapter (`openai.ts` lines 64-67):
`m.role === "assistant" ? "assistant" : "user"`. -/
def cohereRole (r : Role) : Role :=
  if r = Role.assistant then Role.assistant else Role.user

/-- The message mapping of `getCohereCompletion` (blocking adapter). -/
def cohereMessagesBlocking (ms : List ChatMessage) : List ChatMessage :=
  ms.map fun m => { role := cohereRole m.role, content := m.content }

/-- The message mapping of `streamCohereCompletion` (streaming adapter);
textually identical in the source (lines 97-100). -/
def cohereMessagesStreaming (ms : List ChatMessage) : List ChatMessage :=
  ms.map fun m => { role := cohereRole m.role, content := m.content }

/-- Modelled from the spec: the one-to-one role mapping the claim about
the fallback adapter is compared against (assistant stays assistant,
user stays user, system is sent as user). -/
def cohereRoleSpec : Role → Role
  | Role.assistant => Role.assistant
  | Role.user => Role.user
  | Role.system => Role.user

/-- Behaviour of one blocking Groq call: `ok content` is an HTTP success
whose `choices[0]?.message?.content` field is `content` (`none` when the
field is absent); `fail msg` is a thrown error with message `msg`. -/
inductive GroqResult
  | ok (content : Option String)
  | fail (msg : String)
deriving DecidableEq, Repr

/-- Behaviour of one blocking Cohere call: `ok content` is a success whose
`response.message?.content` array is `content`; each array item is `some t`
when it has a `"text"` field with value `t`, `none` otherwise. -/
inductive CohereResult
  | ok (content : Option (List (Option String)))
  | fail (msg : String)
deriving DecidableEq, Repr

/-- Groq response extraction (`openai.ts` line 149):
`response.choices[0]?.message?.content || apology`. -/
def groqExtract (content : Option String) : String :=
  match content with
  | none => apologyText
  | some t => if t = "" then apologyText else t

/-- Cohere response extraction (`getCohereCompletion`, lines 79-87):
find the first array item with a `"text"` field, return its text, with
the apology on a falsy text or when no such item exists. -/
def cohereExtract (content : Option (List (Option String))) : String :=
  match content with
  | none => apologyText
  | some items =>
    match items.find? (fun it => it.isSome) with
    | some (some t) => if t = "" then apologyText else t
    | _ => apologyText

/-- Outcome of one `getChatCompletion` run: the returned text or the
thrown error message, how often each provider was called, and the
combined diagnostic written to the server log (if any). -/
structure CompletionOutcome where
  result : Except String String
  groqCalls : Nat
  cohereCalls : Nat
  criticalLog : Option String
deriving Repr

/-- `getChatCompletion` (`openai.ts` lines 122-170): try Groq; on any
throw, try Cohere with the identical messages; if Cohere also throws,
log the combined diagnostic and throw the fixed generic message. -/
def getChatCompletion (g : GroqResult) (c : CohereResult) : CompletionOutcome :=
  match g with
  | GroqResult.ok content =>
    { result := Except.ok (groqExtract content)
      groqCalls := 1, cohereCalls := 0, criticalLog := none }
  | GroqResult.fail gm =>
    match c with
    | CohereResult.ok content =>
      { result := Except.ok (cohereExtract content)
        groqCalls := 1, cohereCalls := 1, criticalLog := none }
    | CohereResult.fail cm =>
      { result := Except.error unavailableText
        groqCalls := 1, cohereCalls := 1
        criticalLog := some (combinedLogText gm cm) }

/-! ## Completion engine, streaming path (`streamChatCompletion`) -/

/-- Behaviour of one streaming provider call: the (truthy) text deltas it
delivers through `onChunk`, then either normal completion
(`failure = none`) or a throw with the given message. -/
structure ProviderRun where
  emitted : List String
  failure : Option String
deriving DecidableEq, Repr

/-- One callback observed by the caller of `streamChatCompletion`. -/
inductive CallbackEvent
  | chunk (delta : String)
  | done
  | failed (msg : String)
deriving DecidableEq, Repr

/-- Outcome of one `streamChatCompletion` run: the callback trace, and
whether the Cohere fallback stream was attempted. -/
structure StreamRun where
  events : List CallbackEvent
  cohereTried : Bool
deriving DecidableEq, Repr

/-- `streamChatCompletion` (`openai.ts` lines 173-226): stream from Groq
forwarding every delta; on any Groq throw (before or after deltas) fall
back to `streamCohereCompletion` with the same `onChunk`; if that also
throws, call `onError` once with the fixed generic message.  The
`onError` argument of `streamCohereCompletion` is never invoked by it —
its throws propagate to the outer catch. -/
def streamChatCompletion (g c : ProviderRun) : StreamRun :=
  match g.failure with
  | none =>
    { events := g.emitted.map CallbackEvent.chunk ++ [CallbackEvent.done]
      cohereTried := false }
  | some _ =>
    match c.failure with
    | none =>
      { events := g.emitted.map CallbackEvent.chunk
          ++ c.emitted.map CallbackEvent.chunk ++ [CallbackEvent.done]
        cohereTried := true }
    | some _ =>
      { events := g.emitted.map CallbackEvent.chunk
          ++ c.emitted.map CallbackEvent.chunk
          ++ [CallbackEvent.failed unavailableText]
        cohereTried := true }

/-- Number of `failed` callbacks (`onError` invocations) in a trace. -/
def countFailed (es : List CallbackEvent) : Nat :=
  (es.filter fun e => match e with | CallbackEvent.failed _ => true | _ => false).length

/-! ## Stream relay (`src/app/api/chat/stream/route.ts`, lines 47-93) -/

/-- One wire-level server-sent event (the `StreamEvent` union). -/
inductive StreamEvent
  | content (delta : String)
  | done (sessionId : String)
  | failed (msg : String)
deriving DecidableEq, Repr

/-- One observable action of the relay: emit a wire event, persist the
assistant message (push + save), or close the transport. -/
inductive RelayAction
  | emit (e : StreamEvent)
  | persistAssistant (text : String)
  | closeStream
deriving DecidableEq, Repr

/-- The relay's reaction to the engine's callback trace, threading the
`fullResponse` accumulator: each chunk is appended to the accumulator and
emitted as a `content` event carrying only the delta; `onDone` persists
the accumulator, emits `done` with the session id and closes; `onError`
emits `error` and closes without persisting. -/
def relaySteps (sid : String) : List CallbackEvent → String → List RelayAction
  | [], _ => []
  | CallbackEvent.chunk s :: rest, acc =>
    RelayAction.emit (StreamEvent.content s) :: relaySteps sid rest (acc ++ s)
  | CallbackEvent.done :: rest, acc =>
    RelayAction.persistAssistant acc
      :: RelayAction.emit (StreamEvent.done sid)
      :: RelayAction.closeStream
      :: relaySteps sid rest acc
  | CallbackEvent.failed m :: rest, acc =>
    RelayAction.emit (StreamEvent.failed m)
      :: RelayAction.closeStream
      :: relaySteps sid rest acc

/-- The relay run on a completed engine stream. -/
def relayRun (sid : String) (r : StreamRun) : List RelayAction :=
  relaySteps sid r.events ""

/-- Number of persistence actions in a relay run. -/
def countPersist (as : List RelayAction) : Nat :=
  (as.filter fun a => match a with | RelayAction.persistAssistant _ => true | _ => false).length

/-! ## Document truncation (`src/lib/fileParser.ts`, lines 211-219) -/

/-- The marker inserted between head and tail of an oversized document,
noting the total length of the original text. -/
def truncMarker (totalLen : Nat) : String :=
  "\n\n[... content truncated for length (" ++ toString totalLen ++ " chars total) ...]\n\n"

/-- `truncateForContext`: texts within the budget pass unchanged;
oversized texts keep the first and last `⌊maxChars/2⌋` characters with
the marker in between. -/
def truncateForContext (text : String) (maxChars : Nat) : String :=
  if strLen text ≤ maxChars then text
  else
    let halfMax := maxChars / 2
    strTake text halfMax ++ truncMarker (strLen text) ++ strTakeLast text halfMax

/-! ## Context assembler (`src/app/api/chat/route.ts` and
`src/app/api/chat/stream/route.ts`) -/

/-- One uploaded file row with `status: "ready"` and parsed text, as read
back by the chat route. -/
structure UploadedDoc where
  originalName : String
  mimeType : String
  extractedText : String
deriving DecidableEq, Repr

/-- The per-file block of the chat route (lines 71-74). -/
def fileEntry (f : UploadedDoc) : String :=
  "--- FILE: \"" ++ f.originalName ++ "\" (" ++ f.mimeType ++ ") ---\n"
    ++ truncateForContext f.extractedText 8000 ++ "\n--- END FILE ---"

/-- `fileContextPrefix` of the chat route (lines 69-77): the empty string
when no ready files exist, otherwise the instruction header followed by
the joined file blocks. -/
def fileContextBlock (files : List UploadedDoc) : String :=
  if files.isEmpty then ""
  else
    "The user has uploaded the following document(s). Use this content to answer their questions accurately. If they ask about something not in the documents, let them know.\n\n"
      ++ String.intercalate "\n\n" (files.map fileEntry) ++ "\n\n"

/-- JS `array.slice(-n)`: the suffix of the most recent `n` elements. -/
def lastN (n : Nat) (xs : List α) : List α :=
  xs.drop (xs.length - n)

/-- Index-value pairing, JS `map((m, i) => ...)`. -/
def enumFromZ (n : Nat) : List α → List (Nat × α)
  | [] => []
  | a :: l => (n, a) :: enumFromZ (n + 1) l

/-- Context assembly of the non-streaming chat route (lines 80-94):
bounded window of the last 20 stored messages; the file-context block is
prepended to the content of the window's first message exactly when the
block is nonempty and that message's role is `user`. -/
def chatContextMessages (msgs : List StoredMessage) (files : List UploadedDoc) :
    List ChatMessage :=
  let ctx := fileContextBlock files
  (enumFromZ 0 (lastN 20 msgs)).map fun p =>
    if p.1 = 0 ∧ ctx ≠ "" ∧ p.2.role = Role.user then
      { role := p.2.role, content := ctx ++ p.2.content }
    else toChat p.2

/-- Context assembly of the streaming chat route (lines 36-41): the last
20 stored messages, no file-context injection. -/
def streamContextMessages (msgs : List StoredMessage) : List ChatMessage :=
  (lastN 20 msgs).map toChat

/-! ## Route request handling (validation up to the provider call) -/

/-- Outcome of a chat-send POST, up to the completion-engine call: either
an early JSON rejection with an HTTP status, or the engine invoked with
the assembled context messages. -/
inductive RouteOutcome
  | rejected (status : Nat) (errMsg : String)
  | engineCalled (ctx : List ChatMessage)
deriving DecidableEq, Repr

/-- The stored user message the route pushes before assembling context. -/
def pushedUserMessage (msg : String) (now : Nat) (isVoice : Bool) : StoredMessage :=
  { role := Role.user, content := strTrim msg, timestamp := now, isVoice := isVoice }

/-- `POST /api/chat` (`route.ts` lines 22-97): reject missing/non-string
or whitespace-only messages with 400, reject messages over 10000
characters with 400, otherwise push the trimmed user message and call
`getChatCompletion` on the assembled context. -/
def chatPOST (message : Option String) (stored : List StoredMessage)
    (files : List UploadedDoc) (now : Nat) (isVoice : Bool) : RouteOutcome :=
  match message with
  | none => RouteOutcome.rejected 400 "Message is required and must be a non-empty string"
  | some msg =>
    if strLen (strTrim msg) = 0 then
      RouteOutcome.rejected 400 "Message is required and must be a non-empty string"
    else if strLen msg > 10000 then
      RouteOutcome.rejected 400 "Message is too long. Maximum 10,000 characters allowed."
    else
      RouteOutcome.engineCalled
        (chatContextMessages (stored ++ [pushedUserMessage msg now isVoice]) files)

/-- `POST /api/chat/stream` (`stream/route.ts` lines 7-50): reject
missing/non-string or whitespace-only messages with 400; there is no
length check; push the trimmed user message and call
`streamChatCompletion` on the assembled context. -/
def streamPOST (message : Option String) (stored : List StoredMessage)
    (now : Nat) (isVoice : Bool) : RouteOutcome :=
  match message with
  | none => RouteOutcome.rejected 400 "Message is required"
  | some msg =>
    if strLen (strTrim msg) = 0 then
      RouteOutcome.rejected 400 "Message is required"
    else
      RouteOutcome.engineCalled
        (streamContextMessages (stored ++ [pushedUserMessage msg now isVoice]))

/-! ## Image request router (image-generation utility,
`isImageGenerationRequest` / `extractImagePrompt`)

The trigger and strip patterns are anchored JavaScript regexes with the
`i` flag.  They are embedded as backtracking matchers over character
lists: a matcher maps a state (previous consumed character, remaining
input) to the list of possible successor states in the engine's
depth-first priority order (greedy quantifiers first, alternatives in
written order); the head of the final list is the match JavaScript
reports, and the consumed length is `match[0].length`. -/

/-- Matcher state: the previously consumed character (`none` at the start
of the input, needed for `\b`) and the remaining input. -/
abbrev MState := Option Char × List Char

abbrev Matcher := MState → List MState

/-- ASCII lower-casing, the fragment of the `i` flag exercised here. -/
def lowerChar (c : Char) : Char :=
  if 'A' ≤ c ∧ c ≤ 'Z' then Char.ofNat (c.toNat + 32) else c

/-- JS `\w`: ASCII letters, digits and underscore. -/
def isWordChar (c : Char) : Bool :=
  ('a' ≤ c && c ≤ 'z') || ('A' ≤ c && c ≤ 'Z') || ('0' ≤ c && c ≤ '9') || c = '_'

def flatMapL (f : α → List β) : List α → List β
  | [] => []
  | a :: l => f a ++ flatMapL f l

/-- Case-insensitive literal: consume the given (lowercase) characters. -/
def litAux : List Char → MState → List MState
  | [], st => [st]
  | l :: ls, (_, c :: rest) => if lowerChar c = l then litAux ls (some c, rest) else []
  | _ :: _, (_, []) => []

def litCI (s : String) : Matcher := litAux s.data

/-- Greedy `\s*`: successor states from maximal consumption down to none. -/
def wsStarAux (p : Option Char) : List Char → List MState
  | [] => [(p, [])]
  | c :: rest =>
    if isWS c then wsStarAux (some c) rest ++ [(p, c :: rest)]
    else [(p, c :: rest)]

def wsStar : Matcher := fun st => wsStarAux st.1 st.2

/-- Greedy `\s+`: at least one whitespace character. -/
def wsPlus : Matcher := fun st =>
  match st with
  | (_, []) => []
  | (_, c :: rest) => if isWS c then wsStarAux (some c) rest else []

/-- Sequencing: depth-first over the left matcher's alternatives. -/
def seqM (a b : Matcher) : Matcher := fun st => flatMapL b (a st)

def seqL (ms : List Matcher) : Matcher := fun st =>
  ms.foldl (fun acc m => flatMapL m acc) [st]

/-- Ordered alternation `(x|y|...)`. -/
def altL (ms : List Matcher) : Matcher := fun st => flatMapL (fun m => m st) ms

/-- Greedy option `(...)?`: try the body first, then the empty match. -/
def optM (a : Matcher) : Matcher := fun st => a st ++ [st]

/-- Zero-width `\b`: a word/non-word boundary between the previously
consumed character and the next input character. -/
def isWordOpt : Option Char → Bool
  | none => false
  | some c => isWordChar c

def wordB : Matcher := fun st =>
  if isWordOpt st.1 ≠ isWordOpt st.2.head? then [st] else []

/-- Anchored match at position 0: the first successful parse in engine
order, reported as `match[0].length`. -/
def runPat (m : Matcher) (s : String) : Option Nat :=
  match m (none, s.data) with
  | [] => none
  | (_, rest) :: _ => some (s.data.length - rest.length)

def testPat (m : Matcher) (s : String) : Bool :=
  (runPat m s).isSome

/-- `(an?\s+)?` -/
def artOpt : Matcher := optM (seqL [litCI "a", optM (litCI "n"), wsPlus])

/-- `(of|for|about|showing|depicting|with)` -/
def prepAlt : Matcher :=
  altL [litCI "of", litCI "for", litCI "about", litCI "showing",
        litCI "depicting", litCI "with"]

/-- The ten `IMAGE_TRIGGER_PATTERNS`, in source order. -/
def triggerPatterns : List Matcher :=
  [ seqL [litCI "generate", wsPlus, artOpt, litCI "image", wsPlus, prepAlt, wordB],
    seqL [litCI "create", wsPlus, artOpt, litCI "image", wsPlus, prepAlt, wordB],
    seqL [litCI "make", wsPlus, artOpt,
          altL [litCI "image", litCI "picture", litCI "photo", litCI "art",
                litCI "artwork", litCI "illustration"],
          wsPlus, prepAlt, wordB],
    seqL [litCI "draw", wsPlus, artOpt,
          optM (altL [litCI "image", litCI "picture", litCI "art",
                      litCI "artwork", litCI "illustration"]),
          wsStar, optM prepAlt, wordB],
    seqL [altL [litCI "paint", litCI "sketch", litCI "design", litCI "illustrate"],
          wordB],
    seqL [litCI "generate", wsPlus, artOpt,
          altL [litCI "picture", litCI "photo", litCI "art", litCI "artwork",
                litCI "illustration"],
          wsPlus, prepAlt, wordB],
    seqL [litCI "create", wsPlus, artOpt,
          altL [litCI "picture", litCI "photo", litCI "art", litCI "artwork",
                litCI "illustration"],
          wsPlus, prepAlt, wordB],
    seqL [altL [litCI "show", litCI "give"], wsPlus, litCI "me", wsPlus, artOpt,
          altL [litCI "image", litCI "picture", litCI "photo", litCI "art"],
          wsPlus, prepAlt, wordB],
    seqL [litCI "imagine", wordB],
    seqL [litCI "visualize", wordB] ]

/-- `isImageGenerationRequest`: some trigger pattern matches the trimmed
message. -/
def isImageGenerationRequest (message : String) : Bool :=
  triggerPatterns.any fun p => testPat p (strTrim message)

/-- First strip pattern of `extractImagePrompt`. -/
def stripPatA : Matcher :=
  seqL [altL [litCI "generate", litCI "create", litCI "make", litCI "draw",
              litCI "paint", litCI "sketch", litCI "design", litCI "illustrate",
              litCI "imagine", litCI "visualize"],
        wsPlus, artOpt,
        optM (altL [litCI "image", litCI "picture", litCI "photo", litCI "art",
                    litCI "artwork", litCI "illustration"]),
        wsStar, optM prepAlt, wsStar]

/-- Second strip pattern of `extractImagePrompt`. -/
def stripPatB : Matcher :=
  seqL [altL [litCI "show", litCI "give"], wsPlus, litCI "me", wsPlus, artOpt,
        altL [litCI "image", litCI "picture", litCI "photo", litCI "art",
              litCI "artwork", litCI "illustration"],
        wsStar, optM prepAlt, wsStar]

/-- The prompt after stripping the first matching strip pattern from the
trimmed message (the loop body with its `break` and inner `trim`). -/
def stripResult (t : String) : String :=
  match runPat stripPatA t with
  | some k => strTrim (String.mk (t.data.drop k))
  | none =>
    match runPat stripPatB t with
    | some k => strTrim (String.mk (t.data.drop k))
    | none => t

/-- `extractImagePrompt`: the stripped prompt, falling back to the
trimmed original message when fewer than 3 characters remain. -/
def extractImagePrompt (message : String) : String :=
  let t := strTrim message
  let p := stripResult t
  if strLen p < 3 then t else p

/-- Modelled from the spec: "the trimmed message with the matched trigger
phrase stripped" — strip the prefix matched by the first classification
trigger pattern that matches, for comparison with `extractImagePrompt`. -/
def firstSomeL : List (Option α) → Option α
  | [] => none
  | some a :: _ => some a
  | none :: l => firstSomeL l

/-- Match length of the first trigger pattern matching the trimmed message. -/
def triggerMatchLen (t : String) : Option Nat :=
  firstSomeL (triggerPatterns.map fun p => runPat p t)

/-- Modelled from the spec: the prompt obtained by stripping the matched
classification trigger phrase from the trimmed message. -/
def triggerMatchStrip (message : String) : Option String :=
  (triggerMatchLen (strTrim message)).map fun k =>
    strTrim (String.mk ((strTrim message).data.drop k))

/-- A Groq response with no extractable text: the content field is absent
or the empty string. -/
def groqNoText (c : Option String) : Bool :=
  match c with
  | none => true
  | some t => t == ""

/-- A Cohere response with no extractable text: no content array, no item
with a `"text"` field, or an empty text. -/
def cohereNoText (c : Option (List (Option String))) : Bool :=
  match c with
  | none => true
  | some items =>
    match items.find? (fun it => it.isSome) with
    | some (some t) => t == ""
    | _ => true

/-- The oversized request used against the missing length check of the
streaming route: 10001 copies of `a`. -/
def bigMsg : String :=
  String.mk (List.replicate 10001 'a')

/-- A concrete conversation of 25 stored messages (alternating roles,
distinct contents) for the window-policy scenario. -/
def demoMsgs : List StoredMessage :=
  (List.range 25).map fun i =>
    { role := if i % 2 = 0 then Role.user else Role.assistant
      content := "m" ++ toString i
      timestamp := i
      isVoice := false }

/-! ## Helper lemmas -/

theorem strLen_append (a b : String) : strLen (a ++ b) = strLen a + strLen b := by
  cases a with
  | mk da =>
    cases b with
    | mk db =>
      show (da ++ db).length = da.length + db.length
      exact List.length_append da db

theorem apologyText_ne_empty : apologyText ≠ "" := by
  decide

theorem groqExtract_ne_empty (c : Option String) : groqExtract c ≠ "" := by
  cases c with
  | none => exact apologyText_ne_empty
  | some t =>
    show (if t = "" then apologyText else t) ≠ ""
    split
    · exact apologyText_ne_empty
    · assumption

theorem cohereExtract_ne_empty (c : Option (List (Option String))) :
    cohereExtract c ≠ "" := by
  cases c with
  | none => exact apologyText_ne_empty
  | some items =>
    show (match items.find? (fun it => it.isSome) with
      | some (some t) => if t = "" then apologyText else t
      | _ => apologyText) ≠ ""
    cases hfind : items.find? (fun it => it.isSome) with
    | none => exact apologyText_ne_empty
    | some x =>
      cases x with
      | none => exact apologyText_ne_empty
      | some t =>
        show (if t = "" then apologyText else t) ≠ ""
        split
        · exact apologyText_ne_empty
        · assumption

theorem countFailed_append (a b : List CallbackEvent) :
    countFailed (a ++ b) = countFailed a + countFailed b := by
  simp [countFailed, List.filter_append]

theorem countFailed_chunks (cs : List String) :
    countFailed (cs.map CallbackEvent.chunk) = 0 := by
  induction cs with
  | nil => rfl
  | cons c t ih =>
    show countFailed (CallbackEvent.chunk c :: t.map CallbackEvent.chunk) = 0
    rw [show countFailed (CallbackEvent.chunk c :: t.map CallbackEvent.chunk)
        = countFailed (t.map CallbackEvent.chunk) from rfl]
    exact ih

theorem countPersist_append (a b : List RelayAction) :
    countPersist (a ++ b) = countPersist a + countPersist b := by
  simp [countPersist, List.filter_append]

theorem countPersist_emits (cs : List String) :
    countPersist (cs.map fun s => RelayAction.emit (StreamEvent.content s)) = 0 := by
  induction cs with
  | nil => rfl
  | cons c t ih =>
    rw [show countPersist ((c :: t).map fun s => RelayAction.emit (StreamEvent.content s))
        = countPersist (t.map fun s => RelayAction.emit (StreamEvent.content s)) from rfl]
    exact ih

/-- The relay maps a block of chunk callbacks to content emissions while
folding the deltas into the accumulator. -/
theorem relaySteps_chunks (sid : String) (cs : List String)
    (t : List CallbackEvent) (acc : String) :
    relaySteps sid (cs.map CallbackEvent.chunk ++ t) acc
      = (cs.map fun s => RelayAction.emit (StreamEvent.content s))
        ++ relaySteps sid t (cs.foldl (· ++ ·) acc) := by
  induction cs generalizing acc with
  | nil => rfl
  | cons c rest ih => simp [relaySteps, ih]

theorem dropWhile_isWS_replicate (n : Nat) (c : Char) (h : isWS c = false) :
    (List.replicate n c).dropWhile isWS = List.replicate n c := by
  cases n with
  | zero => rfl
  | succ m => simp [List.replicate_succ, List.dropWhile_cons, h]

theorem trimL_replicate (n : Nat) (c : Char) (h : isWS c = false) :
    trimL (List.replicate n c) = List.replicate n c := by
  unfold trimL
  rw [dropWhile_isWS_replicate n c h, List.reverse_replicate,
    dropWhile_isWS_replicate n c h, List.reverse_replicate]

theorem strTrim_bigMsg : strTrim bigMsg = bigMsg := by
  show String.mk (trimL (String.mk (List.replicate 10001 'a')).data) = bigMsg
  rw [show (String.mk (List.replicate 10001 'a')).data = List.replicate 10001 'a' from rfl,
    trimL_replicate 10001 'a' (by decide)]
  rfl

theorem strLen_bigMsg : strLen bigMsg = 10001 := by
  show (List.replicate 10001 'a').length = 10001
  rw [List.length_replicate]

theorem enumFromZ_length (l : List α) (n : Nat) : (enumFromZ n l).length = l.length := by
  induction l generalizing n with
  | nil => rfl
  | cons a t ih => simp [enumFromZ, ih]

/-- No injection happens past the window's first index. -/
theorem chatCtx_tail (ctx : String) (l : List StoredMessage) (n : Nat) (hn : n ≠ 0) :
    ((enumFromZ n l).map fun p =>
        if p.1 = 0 ∧ ctx ≠ "" ∧ p.2.role = Role.user then
          { role := p.2.role, content := ctx ++ p.2.content }
        else toChat p.2)
      = l.map toChat := by
  induction l generalizing n with
  | nil => rfl
  | cons m rest ih =>
    simp only [enumFromZ, List.map]
    rw [if_neg (by rintro ⟨h0, -⟩; exact hn h0), ih (n + 1) (Nat.succ_ne_zero n)]

/-- With an empty context block no message is rewritten. -/
theorem chatCtx_no_ctx (l : List StoredMessage) (n : Nat) :
    ((enumFromZ n l).map fun p =>
        if p.1 = 0 ∧ ("" : String) ≠ "" ∧ p.2.role = Role.user then
          { role := p.2.role, content := "" ++ p.2.content }
        else toChat p.2)
      = l.map toChat := by
  induction l generalizing n with
  | nil => rfl
  | cons m rest ih =>
    simp only [enumFromZ, List.map]
    rw [if_neg (by rintro ⟨-, h, -⟩; exact h rfl), ih (n + 1)]

/-- The assembler preserves every role of the bounded window. -/
theorem chatCtx_roles (ctx : String) (l : List StoredMessage) (n : Nat) :
    (((enumFromZ n l).map fun p =>
        if p.1 = 0 ∧ ctx ≠ "" ∧ p.2.role = Role.user then
          { role := p.2.role, content := ctx ++ p.2.content }
        else toChat p.2).map ChatMessage.role)
      = l.map StoredMessage.role := by
  induction l generalizing n with
  | nil => rfl
  | cons m rest ih =>
    simp only [enumFromZ, List.map]
    rw [ih (n + 1)]
    split <;> rfl

/-- One unfolding step of the assembler's indexed map. -/
theorem enumFromZ_map_cons {α β : Type} (f : Nat × α → β) (m : α) (rest : List α) (n : Nat) :
    (enumFromZ n (m :: rest)).map f = f (n, m) :: (enumFromZ (n + 1) rest).map f :=
  rfl

theorem fileContextBlock_ne_empty (files : List UploadedDoc) (h : files ≠ []) :
    fileContextBlock files ≠ "" := by
  unfold fileContextBlock
  rw [if_neg (by simpa [List.isEmpty_iff] using h)]
  intro hcontra
  have hlen := congrArg strLen hcontra
  rw [strLen_append, strLen_append,
    show strLen ("\n\n" : String) = 2 from rfl,
    show strLen ("" : String) = 0 from rfl] at hlen
  omega

/-! ## Claim C2 -/

/-- C2, counterexample: when both providers fail (`Groq: "groq timeout"`,
`Cohere: "cohere 500"`), the error surfaced by `getChatCompletion` is the
fixed generic text, which references neither underlying failure cause —
contradicting the claim that the single surfaced error names both causes. -/
theorem C2_counterexample :
    (getChatCompletion (GroqResult.fail "groq timeout")
        (CohereResult.fail "cohere 500")).result = Except.error unavailableText
    ∧ strContains unavailableText "groq timeout" = false
    ∧ strContains unavailableText "cohere 500" = false := by
  exact ⟨rfl, by decide, by decide⟩

/-- C2, amended: when both providers fail on the blocking path, the
surfaced error is the fixed generic message naming neither cause; the
combined message referencing both causes is only written to the server
log; each provider is called exactly once (no further retry); no raw
provider internals cross the boundary. -/
theorem C2_both_fail_amended (gm cm : String) :
    (getChatCompletion (GroqResult.fail gm) (CohereResult.fail cm)).result
      = Except.error unavailableText
    ∧ (getChatCompletion (GroqResult.fail gm) (CohereResult.fail cm)).criticalLog
      = some (combinedLogText gm cm)
    ∧ (getChatCompletion (GroqResult.fail gm) (CohereResult.fail cm)).groqCalls = 1
    ∧ (getChatCompletion (GroqResult.fail gm) (CohereResult.fail cm)).cohereCalls = 1 :=
  ⟨rfl, rfl, rfl, rfl⟩

/-! ## Claim C7 -/

/-- C7, counterexample: a text of 11 characters truncated to a budget of
10 yields a result of 69 characters — the truncation result exceeds the
fixed character budget, contradicting the claim's final conjunct. -/
theorem C7_counterexample :
    10 < strLen (truncateForContext "aaaaaaaaaaa" 10) := by
  decide

/-- C7, amended: truncation returns the text unchanged when its length is
at most the budget `C`; otherwise it returns the first `⌊C/2⌋` characters,
the truncation marker noting the total original length, and the last
`⌊C/2⌋` characters — the result's length is `2·⌊C/2⌋` plus the marker's
length, which exceeds the budget by (about) the marker length. -/
theorem C7_truncate_amended (text : String) (maxChars : Nat) :
    (strLen text ≤ maxChars → truncateForContext text maxChars = text)
    ∧ (maxChars < strLen text →
        truncateForContext text maxChars
          = strTake text (maxChars / 2) ++ truncMarker (strLen text)
            ++ strTakeLast text (maxChars / 2)
        ∧ strLen (truncateForContext text maxChars)
          = maxChars / 2 + strLen (truncMarker (strLen text)) + maxChars / 2) := by
  constructor
  · intro h
    unfold truncateForContext
    rw [if_pos h]
  · intro h
    have hne : ¬ strLen text ≤ maxChars := by omega
    constructor
    · unfold truncateForContext
      rw [if_neg hne]
    · unfold truncateForContext
      rw [if_neg hne, strLen_append, strLen_append]
      have h1 : strLen (strTake text (maxChars / 2)) = maxChars / 2 := by
        show (text.data.take (maxChars / 2)).length = maxChars / 2
        rw [List.length_take]
        have : maxChars / 2 ≤ strLen text := by
          have := Nat.div_le_self maxChars 2
          omega
        exact Nat.min_eq_left this
      have h2 : strLen (strTakeLast text (maxChars / 2)) = maxChars / 2 := by
        show (text.data.drop (text.data.length - maxChars / 2)).length = maxChars / 2
        rw [List.length_drop]
        have : maxChars / 2 ≤ strLen text := by
          have := Nat.div_le_self maxChars 2
          omega
        have hlen : strLen text = text.data.length := rfl
        omega
      rw [h1, h2]

/-- C7 witness: the amended truncation law evaluated on `"abc"` (within a
budget of 10) and on an 11-character text (over the budget of 10). -/
theorem C7_witness :
    (truncateForContext "abc" 10 = "abc")
    ∧ (truncateForContext "aaaaaaaaaaa" 10
        = strTake "aaaaaaaaaaa" 5 ++ truncMarker 11 ++ strTakeLast "aaaaaaaaaaa" 5
      ∧ strLen (truncateForContext "aaaaaaaaaaa" 10)
        = 5 + strLen (truncMarker 11) + 5) :=
  ⟨(C7_truncate_amended "abc" 10).1 (by decide),
   (C7_truncate_amended "aaaaaaaaaaa" 10).2 (by decide)⟩

/-! ## Claim C9 -/

/-- C9: in the fallback (Cohere) adapter, blocking and streaming paths
use the same role translation, which preserves only `assistant` and sends
every other role — `system` included — as `user`; message contents are
passed through unchanged. -/
theorem C9_fallback_role_mapping (ms : List ChatMessage) :
    cohereMessagesBlocking ms
      = ms.map (fun m => { role := cohereRoleSpec m.role, content := m.content })
    ∧ cohereMessagesStreaming ms
      = ms.map (fun m => { role := cohereRoleSpec m.role, content := m.content })
    ∧ cohereRole Role.system = Role.user
    ∧ cohereRole Role.user = Role.user
    ∧ cohereRole Role.assistant = Role.assistant
    ∧ (cohereMessagesBlocking ms).map ChatMessage.content = ms.map ChatMessage.content := by
  have hrole : ∀ r, cohereRole r = cohereRoleSpec r := by
    intro r
    cases r <;> rfl
  refine ⟨?_, ?_, rfl, rfl, rfl, ?_⟩
  · simp [cohereMessagesBlocking, hrole]
  · simp [cohereMessagesStreaming, hrole]
  · simp [cohereMessagesBlocking]

/-! ## Claim C10 -/

/-- C10: the blocking completion path never returns an empty string, and
whenever the selected provider's response holds no extractable text the
fixed apology string is returned instead. -/
theorem C10_never_empty :
    (∀ (g : GroqResult) (c : CohereResult) (t : String),
        (getChatCompletion g c).result = Except.ok t → t ≠ "")
    ∧ (∀ gc, groqNoText gc = true → groqExtract gc = apologyText)
    ∧ (∀ cc, cohereNoText cc = true → cohereExtract cc = apologyText) := by
  refine ⟨?_, ?_, ?_⟩
  · intro g c t h
    cases g with
    | ok content =>
      have : groqExtract content = t := by
        have hres : (getChatCompletion (GroqResult.ok content) c).result
            = Except.ok (groqExtract content) := rfl
        rw [hres] at h
        exact Except.ok.inj h
      rw [← this]
      exact groqExtract_ne_empty content
    | fail gm =>
      cases c with
      | ok content =>
        have : cohereExtract content = t := by
          have hres : (getChatCompletion (GroqResult.fail gm) (CohereResult.ok content)).result
              = Except.ok (cohereExtract content) := rfl
          rw [hres] at h
          exact Except.ok.inj h
        rw [← this]
        exact cohereExtract_ne_empty content
      | fail cm =>
        exact absurd h (by simp [getChatCompletion])
  · intro gc h
    cases gc with
    | none => rfl
    | some t =>
      have ht : t = "" := by simpa [groqNoText] using h
      simp [groqExtract, ht]
  · intro cc h
    cases cc with
    | none => rfl
    | some items =>
      show (match items.find? (fun it => it.isSome) with
        | some (some t) => if t = "" then apologyText else t
        | _ => apologyText) = apologyText
      cases hfind : items.find? (fun it => it.isSome) with
      | none => rfl
      | some x =>
        cases x with
        | none => rfl
        | some t =>
          have ht : t = "" := by
            have hh : (match items.find? (fun it => it.isSome) with
                | some (some t) => t == ""
                | _ => true) = true := h
            rw [hfind] at hh
            simpa using hh
          show (if t = "" then apologyText else t) = apologyText
          rw [if_pos ht]

/-- C10 witness: a Groq success with text `"hi"` yields a nonempty
result, and a Groq response without a content field yields the apology. -/
theorem C10_witness :
    ("hi" : String) ≠ "" ∧ groqExtract none = apologyText :=
  ⟨C10_never_empty.1 (GroqResult.ok (some "hi")) (CohereResult.fail "x") "hi" rfl,
   C10_never_empty.2.1 none rfl⟩

/-- Equation: primary stream succeeds. -/
theorem stream_eq_primary_ok (g c : ProviderRun) (h : g.failure = none) :
    streamChatCompletion g c
      = ⟨g.emitted.map CallbackEvent.chunk ++ [CallbackEvent.done], false⟩ := by
  unfold streamChatCompletion
  rw [h]

/-- Equation: primary fails, fallback stream succeeds. -/
theorem stream_eq_fallback_ok (g c : ProviderRun) (e : String)
    (hg : g.failure = some e) (hc : c.failure = none) :
    streamChatCompletion g c
      = ⟨g.emitted.map CallbackEvent.chunk ++ c.emitted.map CallbackEvent.chunk
          ++ [CallbackEvent.done], true⟩ := by
  unfold streamChatCompletion
  rw [hg, hc]

/-- Equation: primary fails, fallback stream also fails. -/
theorem stream_eq_fallback_fail (g c : ProviderRun) (e e2 : String)
    (hg : g.failure = some e) (hc : c.failure = some e2) :
    streamChatCompletion g c
      = ⟨g.emitted.map CallbackEvent.chunk ++ c.emitted.map CallbackEvent.chunk
          ++ [CallbackEvent.failed unavailableText], true⟩ := by
  unfold streamChatCompletion
  rw [hg, hc]

/-! ## Claim C1 -/

/-- C1, counterexample: the primary stream emits `"Hel"`, `"lo"` and then
fails while the fallback succeeds with `"Hi"` — `streamChatCompletion`
DOES attempt the fallback, `onError` is invoked zero times (not once),
and an assistant message IS persisted for the turn. -/
theorem C1_counterexample :
    (streamChatCompletion ⟨["Hel", "lo"], some "primary failed"⟩ ⟨["Hi"], none⟩).cohereTried
      = true
    ∧ countFailed
        (streamChatCompletion ⟨["Hel", "lo"], some "primary failed"⟩ ⟨["Hi"], none⟩).events
      = 0
    ∧ countPersist
        (relayRun "s1"
          (streamChatCompletion ⟨["Hel", "lo"], some "primary failed"⟩ ⟨["Hi"], none⟩))
      = 1 := by
  exact ⟨rfl, rfl, rfl⟩

/-- C1, amended: when the primary stream fails after emitting `k > 0`
deltas, `streamChatCompletion` does attempt the fallback with the same
callbacks: the fallback's deltas follow the `k` primary chunks; if the
fallback completes, `onDone` fires, no `onError` is invoked, and the
relay persists one assistant message (the concatenated primary+fallback
text); only if the fallback also fails is `onError` invoked, exactly
once, after all chunks, and then no assistant message is persisted. -/
theorem C1_midstream_fallback_amended (g c : ProviderRun) (sid e : String)
    (hfail : g.failure = some e) (_hk : 0 < g.emitted.length) :
    (streamChatCompletion g c).cohereTried = true
    ∧ (c.failure = none →
        (streamChatCompletion g c).events
          = (g.emitted ++ c.emitted).map CallbackEvent.chunk ++ [CallbackEvent.done]
        ∧ countFailed (streamChatCompletion g c).events = 0
        ∧ countPersist (relayRun sid (streamChatCompletion g c)) = 1)
    ∧ (∀ e2, c.failure = some e2 →
        (streamChatCompletion g c).events
          = (g.emitted ++ c.emitted).map CallbackEvent.chunk
            ++ [CallbackEvent.failed unavailableText]
        ∧ countFailed (streamChatCompletion g c).events = 1
        ∧ countPersist (relayRun sid (streamChatCompletion g c)) = 0) := by
  refine ⟨?_, ?_, ?_⟩
  · cases hc : c.failure with
    | none => rw [stream_eq_fallback_ok g c e hfail hc]
    | some e2 => rw [stream_eq_fallback_fail g c e e2 hfail hc]
  · intro hc
    rw [stream_eq_fallback_ok g c e hfail hc]
    refine ⟨by rw [List.map_append], ?_, ?_⟩
    · show countFailed (g.emitted.map CallbackEvent.chunk
        ++ c.emitted.map CallbackEvent.chunk ++ [CallbackEvent.done]) = 0
      rw [countFailed_append, countFailed_append, countFailed_chunks, countFailed_chunks]
      rfl
    · show countPersist (relaySteps sid
        (g.emitted.map CallbackEvent.chunk
          ++ c.emitted.map CallbackEvent.chunk ++ [CallbackEvent.done]) "") = 1
      rw [← List.map_append, relaySteps_chunks, countPersist_append, countPersist_emits]
      rfl
  · intro e2 hc
    rw [stream_eq_fallback_fail g c e e2 hfail hc]
    refine ⟨by rw [List.map_append], ?_, ?_⟩
    · show countFailed (g.emitted.map CallbackEvent.chunk
        ++ c.emitted.map CallbackEvent.chunk ++ [CallbackEvent.failed unavailableText]) = 1
      rw [countFailed_append, countFailed_append, countFailed_chunks, countFailed_chunks]
      rfl
    · show countPersist (relaySteps sid
        (g.emitted.map CallbackEvent.chunk
          ++ c.emitted.map CallbackEvent.chunk ++ [CallbackEvent.failed unavailableText]) "") = 0
      rw [← List.map_append, relaySteps_chunks, countPersist_append, countPersist_emits]
      rfl

/-- C1 witness: the amended mid-stream-failure law evaluated with a
primary that fails after two chunks and a fallback that succeeds. -/
theorem C1_witness :
    (streamChatCompletion ⟨["Hel", "lo"], some "x"⟩ ⟨["Hi"], none⟩).cohereTried = true
    ∧ ((⟨["Hi"], none⟩ : ProviderRun).failure = none →
        (streamChatCompletion ⟨["Hel", "lo"], some "x"⟩ ⟨["Hi"], none⟩).events
          = ((["Hel", "lo"] ++ ["Hi"]).map CallbackEvent.chunk ++ [CallbackEvent.done])
        ∧ countFailed (streamChatCompletion ⟨["Hel", "lo"], some "x"⟩ ⟨["Hi"], none⟩).events = 0
        ∧ countPersist (relayRun "s2"
            (streamChatCompletion ⟨["Hel", "lo"], some "x"⟩ ⟨["Hi"], none⟩)) = 1)
    ∧ (∀ e2, (⟨["Hi"], none⟩ : ProviderRun).failure = some e2 →
        (streamChatCompletion ⟨["Hel", "lo"], some "x"⟩ ⟨["Hi"], none⟩).events
          = ((["Hel", "lo"] ++ ["Hi"]).map CallbackEvent.chunk
            ++ [CallbackEvent.failed unavailableText])
        ∧ countFailed (streamChatCompletion ⟨["Hel", "lo"], some "x"⟩ ⟨["Hi"], none⟩).events = 1
        ∧ countPersist (relayRun "s2"
            (streamChatCompletion ⟨["Hel", "lo"], some "x"⟩ ⟨["Hi"], none⟩)) = 0) :=
  C1_midstream_fallback_amended ⟨["Hel", "lo"], some "x"⟩ ⟨["Hi"], none⟩ "s2" "x" rfl
    (by decide)

/-! ## Claim C6 -/

/-- C6: every streaming response consists of zero or more content events
(each carrying a single delta) followed by exactly one terminal event;
on the done path the relay persists the accumulated assistant text
exactly once, before the `done` event, and closes; on the error path it
emits the error event and closes without persisting; nothing follows the
close. -/
theorem C6_stream_event_discipline (g c : ProviderRun) (sid : String) :
    ∃ cs : List String,
      ((streamChatCompletion g c).events
          = cs.map CallbackEvent.chunk ++ [CallbackEvent.done]
        ∧ relayRun sid (streamChatCompletion g c)
          = (cs.map fun s => RelayAction.emit (StreamEvent.content s))
            ++ [RelayAction.persistAssistant (cs.foldl (· ++ ·) ""),
                RelayAction.emit (StreamEvent.done sid), RelayAction.closeStream])
      ∨ ((streamChatCompletion g c).events
          = cs.map CallbackEvent.chunk ++ [CallbackEvent.failed unavailableText]
        ∧ relayRun sid (streamChatCompletion g c)
          = (cs.map fun s => RelayAction.emit (StreamEvent.content s))
            ++ [RelayAction.emit (StreamEvent.failed unavailableText),
                RelayAction.closeStream]) := by
  cases hg : g.failure with
  | none =>
    rw [stream_eq_primary_ok g c hg]
    refine ⟨g.emitted, Or.inl ⟨rfl, ?_⟩⟩
    show relaySteps sid (g.emitted.map CallbackEvent.chunk ++ [CallbackEvent.done]) "" = _
    rw [relaySteps_chunks]
    rfl
  | some e1 =>
    cases hc : c.failure with
    | none =>
      rw [stream_eq_fallback_ok g c e1 hg hc]
      refine ⟨g.emitted ++ c.emitted, Or.inl ⟨by rw [List.map_append], ?_⟩⟩
      show relaySteps sid (g.emitted.map CallbackEvent.chunk
        ++ c.emitted.map CallbackEvent.chunk ++ [CallbackEvent.done]) "" = _
      rw [← List.map_append, relaySteps_chunks]
      rfl
    | some e2 =>
      rw [stream_eq_fallback_fail g c e1 e2 hg hc]
      refine ⟨g.emitted ++ c.emitted, Or.inr ⟨by rw [List.map_append], ?_⟩⟩
      show relaySteps sid (g.emitted.map CallbackEvent.chunk
        ++ c.emitted.map CallbackEvent.chunk ++ [CallbackEvent.failed unavailableText]) "" = _
      rw [← List.map_append, relaySteps_chunks]
      rfl

/-! ## Claim C3 -/

/-- C3, counterexample: a POST to the streaming chat endpoint whose
message is 10001 characters long is NOT rejected — the provider call is
attempted with the oversized message, contradicting the claim that both
chat-send endpoints reject oversized messages with 400. -/
theorem C3_counterexample :
    streamPOST (some bigMsg) [] 0 false
      = RouteOutcome.engineCalled [{ role := Role.user, content := bigMsg }]
    ∧ 10000 < strLen bigMsg := by
  have h1 : strLen (strTrim bigMsg) = 10001 := by
    rw [strTrim_bigMsg]
    exact strLen_bigMsg
  constructor
  · simp only [streamPOST]
    rw [if_neg (by omega)]
    have h2 : streamContextMessages ([] ++ [pushedUserMessage bigMsg 0 false])
        = [{ role := Role.user, content := strTrim bigMsg }] := rfl
    rw [h2, strTrim_bigMsg]
  · rw [strLen_bigMsg]
    omega

/-- C3, amended: both endpoints reject empty (whitespace-only or missing)
messages with 400 before any provider call; the non-streaming endpoint
also rejects messages over 10000 characters with 400, but the streaming
endpoint has no length check — an oversized non-empty message reaches the
provider call there. -/
theorem C3_validation_amended (msg : String) (stored : List StoredMessage)
    (files : List UploadedDoc) (now : Nat) (v : Bool) :
    (strLen (strTrim msg) = 0 →
      chatPOST (some msg) stored files now v
        = RouteOutcome.rejected 400 "Message is required and must be a non-empty string"
      ∧ streamPOST (some msg) stored now v
        = RouteOutcome.rejected 400 "Message is required")
    ∧ (strLen (strTrim msg) ≠ 0 → 10000 < strLen msg →
      chatPOST (some msg) stored files now v
        = RouteOutcome.rejected 400 "Message is too long. Maximum 10,000 characters allowed."
      ∧ streamPOST (some msg) stored now v
        = RouteOutcome.engineCalled
            (streamContextMessages (stored ++ [pushedUserMessage msg now v])))
    ∧ chatPOST none stored files now v
        = RouteOutcome.rejected 400 "Message is required and must be a non-empty string"
    ∧ streamPOST none stored now v = RouteOutcome.rejected 400 "Message is required" := by
  refine ⟨?_, ?_, rfl, rfl⟩
  · intro h
    constructor
    · simp only [chatPOST]
      rw [if_pos h]
    · simp only [streamPOST]
      rw [if_pos h]
  · intro h hlen
    constructor
    · simp only [chatPOST]
      rw [if_neg h, if_pos hlen]
    · simp only [streamPOST]
      rw [if_neg h]

/-- C3 witness: the amended validation law evaluated on the 10001
character message — rejected by the non-streaming route, passed to the
provider by the streaming route. -/
theorem C3_witness :
    chatPOST (some bigMsg) [] [] 0 false
      = RouteOutcome.rejected 400 "Message is too long. Maximum 10,000 characters allowed."
    ∧ streamPOST (some bigMsg) [] 0 false
      = RouteOutcome.engineCalled
          (streamContextMessages ([] ++ [pushedUserMessage bigMsg 0 false])) :=
  (C3_validation_amended bigMsg [] [] 0 false).2.1
    (by rw [strTrim_bigMsg, strLen_bigMsg]; omega)
    (by rw [strLen_bigMsg]; omega)

/-! ## Claim C4 -/

/-- C4: when at least one ready document exists and the first message of
the bounded window has role `user`, the first submitted content is
exactly the document-context block concatenated with the original
content and the remaining messages are passed through unchanged; when
the window starts with a non-user message, no context is injected and
every submitted content equals the stored content. -/
theorem C4_file_context_injection (msgs : List StoredMessage) (files : List UploadedDoc)
    (m : StoredMessage) (rest : List StoredMessage)
    (hwin : lastN 20 msgs = m :: rest) :
    (files ≠ [] → m.role = Role.user →
      chatContextMessages msgs files
        = { role := Role.user, content := fileContextBlock files ++ m.content }
          :: rest.map toChat)
    ∧ (m.role ≠ Role.user →
      chatContextMessages msgs files = (m :: rest).map toChat) := by
  constructor
  · intro hf hrole
    simp only [chatContextMessages]
    rw [hwin, enumFromZ_map_cons,
      chatCtx_tail (fileContextBlock files) rest 1 Nat.one_ne_zero]
    congr 1
    show (if (0 : Nat) = 0 ∧ fileContextBlock files ≠ "" ∧ m.role = Role.user then
        ({ role := m.role, content := fileContextBlock files ++ m.content } : ChatMessage)
      else toChat m)
      = { role := Role.user, content := fileContextBlock files ++ m.content }
    rw [if_pos ⟨rfl, fileContextBlock_ne_empty files hf, hrole⟩, hrole]
  · intro hrole
    simp only [chatContextMessages]
    rw [hwin, enumFromZ_map_cons,
      chatCtx_tail (fileContextBlock files) rest 1 Nat.one_ne_zero, List.map_cons]
    congr 1
    show (if (0 : Nat) = 0 ∧ fileContextBlock files ≠ "" ∧ m.role = Role.user then
        ({ role := m.role, content := fileContextBlock files ++ m.content } : ChatMessage)
      else toChat m) = toChat m
    rw [if_neg (by rintro ⟨-, -, hr⟩; exact hrole hr)]

/-- C4 witness: one ready document and a single-user-message window — the
submitted content is the context block plus the original text. -/
theorem C4_witness :
    chatContextMessages [⟨Role.user, "q", 0, false⟩] [⟨"f.txt", "text/plain", "T"⟩]
      = [{ role := Role.user
           content := fileContextBlock [⟨"f.txt", "text/plain", "T"⟩] ++ "q" }] :=
  (C4_file_context_injection [⟨Role.user, "q", 0, false⟩] [⟨"f.txt", "text/plain", "T"⟩]
      ⟨Role.user, "q", 0, false⟩ [] rfl).1 (by decide) rfl

/-! ## Claim C5 -/

/-- C5: the submitted message list is the suffix of the most recent at
most 20 stored messages in original order — the streaming assembler
returns exactly that suffix, the chat assembler never exceeds 20 messages
and preserves all roles in order, and (with no documents) equals the
suffix as well; a 25-message conversation yields messages 6 through 25
unchanged.  The stored list is passed by value and never mutated. -/
theorem C5_window_policy (msgs : List StoredMessage) (files : List UploadedDoc) :
    streamContextMessages msgs = (msgs.drop (msgs.length - 20)).map toChat
    ∧ (streamContextMessages msgs).length ≤ 20
    ∧ (chatContextMessages msgs files).length ≤ 20
    ∧ (chatContextMessages msgs files).map ChatMessage.role
        = (msgs.drop (msgs.length - 20)).map StoredMessage.role
    ∧ chatContextMessages msgs [] = (msgs.drop (msgs.length - 20)).map toChat
    ∧ streamContextMessages demoMsgs = (demoMsgs.drop 5).map toChat
    ∧ (demoMsgs.drop 5).length = 20 := by
  refine ⟨rfl, ?_, ?_, ?_, ?_, rfl, ?_⟩
  · show ((lastN 20 msgs).map toChat).length ≤ 20
    rw [List.length_map]
    show (msgs.drop (msgs.length - 20)).length ≤ 20
    rw [List.length_drop]
    omega
  · simp only [chatContextMessages]
    rw [List.length_map, enumFromZ_length]
    show (msgs.drop (msgs.length - 20)).length ≤ 20
    rw [List.length_drop]
    omega
  · simp only [chatContextMessages]
    exact chatCtx_roles (fileContextBlock files) (lastN 20 msgs) 0
  · simp only [chatContextMessages, show fileContextBlock [] = "" from rfl]
    exact chatCtx_no_ctx (lastN 20 msgs) 0
  · rfl

/-! ## Claim C8 -/

/-- C8, counterexample: `"draw artwork of a cat"` is classified as an
image request whose matched trigger phrase is `"draw artwork of"`
(stripping it would leave `"a cat"`), yet the extraction patterns match
only `"draw art"` and the extracted prompt is `"work of a cat"` — the
prompt is not the trimmed message with the matched trigger phrase
stripped. -/
theorem C8_counterexample :
    isImageGenerationRequest "draw artwork of a cat" = true
    ∧ extractImagePrompt "draw artwork of a cat" = "work of a cat"
    ∧ triggerMatchStrip "draw artwork of a cat" = some "a cat"
    ∧ ("work of a cat" : String) ≠ "a cat" := by
  exact ⟨by decide, by decide, by decide, by decide⟩

/-- C8, amended: for a message classified as an image request, the
extracted prompt is the trimmed message with the prefix matched by the
first matching extraction pattern stripped (that prefix can be shorter
than the classification trigger match and may split a word), with the
trimmed original used whenever fewer than 3 characters remain; the
scenario `"generate an image of a red bicycle"` classifies true with
prompt `"a red bicycle"`. -/
theorem C8_prompt_extraction_amended :
    (∀ message : String, isImageGenerationRequest message = true →
      extractImagePrompt message
        = (if strLen (stripResult (strTrim message)) < 3 then strTrim message
           else stripResult (strTrim message)))
    ∧ (∀ (t : String) (k : Nat), runPat stripPatA t = some k →
        stripResult t = strTrim (String.mk (t.data.drop k)))
    ∧ isImageGenerationRequest "generate an image of a red bicycle" = true
    ∧ extractImagePrompt "generate an image of a red bicycle" = "a red bicycle" := by
  refine ⟨fun m _ => rfl, ?_, by decide, by decide⟩
  intro t k h
  unfold stripResult
  rw [h]

/-- C8 witness: the amended extraction law applied to the scenario
input. -/
theorem C8_witness :
    extractImagePrompt "generate an image of a red bicycle"
      = (if strLen (stripResult (strTrim "generate an image of a red bicycle")) < 3
         then strTrim "generate an image of a red bicycle"
         else stripResult (strTrim "generate an image of a red bicycle")) :=
  C8_prompt_extraction_amended.1 "generate an image of a red bicycle" (by decide)

end Zeno
